import Mathlib

/-!
Shallow embedding of pyflocker's unified authenticated-cipher state machine
(PyCryptodome backend) and of its RSA operation contexts:

* `pyflocker/ciphers/backends/cryptodome_/symmetric.py`
  (`NonAEADCipherTemplate`, `AEADCipherTemplate`);
* `pyflocker/ciphers/backends/cryptodome_/_symmetric.py`
  (`CipherWrapper._get_update` / `_get_update_into`, `AEADCipherWrapper`,
  `FileCipherMixin.update_into`);
* `pyflocker/ciphers/backends/cryptodome_/RSA.py`
  (`_EncDecContext`, `_SigVerContext`).

Conventions: byte strings are `List Nat`; a Python exception is an `Exc`
value carried through `Except`; a Python method that mutates `self` and may
raise becomes a function `State -> ... -> State × Except Exc α`, so that
mutations performed before a raise persist, exactly as in Python.  The raw
cipher primitives (PyCryptodome handles) are external collaborators of the
core; they are modelled after the spec's raw-cipher-primitive boundary
(`encrypt`/`decrypt`, `update(associated_data)`, `digest() -> tag` on the
encrypting side, `verify(tag)` raising `ValueError` on mismatch) with their
transform and tag computation kept abstract as function fields.
-/

namespace Pyflocker

/-- Byte strings, one `Nat` per byte. -/
abbrev Bytes := List Nat

/-- The exception kinds the embedded code can raise: pyflocker's `exc`
module (`AlreadyFinalized`, `NotFinalized`, `DecryptionError`,
`SignatureError`) plus Python's builtin `TypeError` and `ValueError`. -/
inductive Exc where
  | AlreadyFinalized
  | NotFinalized
  | DecryptionError
  | SignatureError
  | TypeError
  | ValueError
  deriving DecidableEq, Repr

/-! ## External collaborator: native AEAD primitive handle

A PyCryptodome-style AEAD cipher object, per the spec's raw cipher
primitive boundary.  `xf` is the raw chunk transform and `tagFn` the tag
computed over the associated data and payload chunks fed so far; both are
abstract fields of the handle.  The handle records the chunks it has seen,
whether payload processing has begun (`processed`: PyCryptodome raises
`TypeError` from `update` afterwards), whether `decrypt` was used and
whether `verify` ran (PyCryptodome raises `TypeError` from `digest` in
either case). -/

structure AEADPrim where
  xf : Bytes → Bytes
  tagFn : List Bytes → List Bytes → Bytes
  aad : List Bytes
  data : List Bytes
  processed : Bool
  decryptUsed : Bool
  verified : Bool

/-- Associated-data channel `update(data)`: `TypeError` once payload
processing or verification has begun, else the chunk is absorbed. -/
def AEADPrim.updateAAD (p : AEADPrim) (d : Bytes) : AEADPrim × Except Exc Unit :=
  if p.processed || p.verified then (p, .error .TypeError)
  else ({ p with aad := p.aad ++ [d] }, .ok ())

/-- Raw `encrypt(data)`: transforms the chunk and marks payload processing
as begun. -/
def AEADPrim.encrypt (p : AEADPrim) (d : Bytes) : AEADPrim × Bytes :=
  ({ p with data := p.data ++ [d], processed := true }, p.xf d)

/-- Raw `decrypt(data)`: transforms the chunk, marks payload processing as
begun and remembers that the handle is being used for decryption. -/
def AEADPrim.decrypt (p : AEADPrim) (d : Bytes) : AEADPrim × Bytes :=
  ({ p with data := p.data ++ [d], processed := true, decryptUsed := true }, p.xf d)

/-- The tag the primitive computes over the associated data and payload fed
to it so far. -/
def AEADPrim.computedTag (p : AEADPrim) : Bytes :=
  p.tagFn p.aad p.data

/-- Decrypt-side `verify(tag)`: raises `ValueError` iff the supplied tag
differs from the computed tag. -/
def AEADPrim.verify (p : AEADPrim) (t : Bytes) : AEADPrim × Except Exc Unit :=
  if t = p.computedTag then ({ p with verified := true }, .ok ())
  else ({ p with verified := true }, .error .ValueError)

/-- Encrypt-side `digest()`: the computed tag; `TypeError` when the handle
was used for decryption or verification (PyCryptodome behavior). -/
def AEADPrim.digest (p : AEADPrim) : Except Exc Bytes :=
  if p.decryptUsed || p.verified then .error .TypeError
  else .ok p.computedTag

/-! ## symmetric.py: NonAEADCipherTemplate -/

/-- `NonAEADCipherTemplate` (symmetric.py lines 4-30).  `live` models
`self._update_func is not None`; `finalize` sets `_update_func = None`. -/
structure NonAEADCipherTemplate where
  encrypting : Bool
  live : Bool

/-- symmetric.py lines 13-14. -/
def NonAEADCipherTemplate.is_encrypting (s : NonAEADCipherTemplate) : Bool :=
  s.encrypting

/-- symmetric.py lines 26-30: `if not self._update_func: raise
AlreadyFinalized; self._update_func = None`. -/
def NonAEADCipherTemplate.finalize (s : NonAEADCipherTemplate) :
    NonAEADCipherTemplate × Except Exc Unit :=
  if !s.live then (s, .error .AlreadyFinalized)
  else ({ s with live := false }, .ok ())

/-! ## symmetric.py: AEADCipherTemplate -/

/-- `AEADCipherTemplate` (symmetric.py lines 33-85).  `live` models
`self._update_func is not None`; `updated` is `self._updated`; `cipher` is
the native AEAD handle `self._cipher`.  Subclasses bind `_update_func` to
the handle's `encrypt` or `decrypt` according to the direction. -/
structure AEADCipherTemplate where
  encrypting : Bool
  live : Bool
  updated : Bool
  cipher : AEADPrim

/-- symmetric.py lines 44-45. -/
def AEADCipherTemplate.is_encrypting (s : AEADCipherTemplate) : Bool :=
  s.encrypting

/-- symmetric.py lines 47-51: `self._updated = True` happens before the
`AlreadyFinalized` check; then `_update_func(data)` runs the handle's
transform for the context's direction. -/
def AEADCipherTemplate.update (s : AEADCipherTemplate) (d : Bytes) :
    AEADCipherTemplate × Except Exc Bytes :=
  let s1 := { s with updated := true }
  if !s1.live then (s1, .error .AlreadyFinalized)
  else if s1.encrypting then
    let x := s1.cipher.encrypt d
    ({ s1 with cipher := x.1 }, .ok x.2)
  else
    let x := s1.cipher.decrypt d
    ({ s1 with cipher := x.1 }, .ok x.2)

/-- symmetric.py lines 53-57: as `update`, writing the transform's output
into the caller's buffer; the returned bytes are the buffer's new content. -/
def AEADCipherTemplate.updateInto (s : AEADCipherTemplate) (d : Bytes) :
    AEADCipherTemplate × Except Exc Bytes :=
  let s1 := { s with updated := true }
  if !s1.live then (s1, .error .AlreadyFinalized)
  else if s1.encrypting then
    let x := s1.cipher.encrypt d
    ({ s1 with cipher := x.1 }, .ok x.2)
  else
    let x := s1.cipher.decrypt d
    ({ s1 with cipher := x.1 }, .ok x.2)

/-- symmetric.py lines 59-64: `AlreadyFinalized` when finalized, `TypeError`
once `_updated` is set, else forward to the handle's associated-data
channel. -/
def AEADCipherTemplate.authenticate (s : AEADCipherTemplate) (d : Bytes) :
    AEADCipherTemplate × Except Exc Unit :=
  if !s.live then (s, .error .AlreadyFinalized)
  else if s.updated then (s, .error .TypeError)
  else
    let x := s.cipher.updateAAD d
    ({ s with cipher := x.1 }, x.2)

/-- symmetric.py lines 66-79: `AlreadyFinalized` when finalized;
`ValueError` when decrypting without a tag (state untouched); otherwise
`_update_func = None` first, then, when decrypting, the handle's `verify`
runs and its `ValueError` is converted to `DecryptionError`. -/
def AEADCipherTemplate.finalize (s : AEADCipherTemplate) (tag : Option Bytes) :
    AEADCipherTemplate × Except Exc Unit :=
  if !s.live then (s, .error .AlreadyFinalized)
  else if s.encrypting = false ∧ tag = none then (s, .error .ValueError)
  else
    let s1 := { s with live := false }
    if s1.encrypting then (s1, .ok ())
    else
      match tag with
      | some t =>
          let x := s1.cipher.verify t
          let s2 := { s1 with cipher := x.1 }
          match x.2 with
          | .error .ValueError => (s2, .error .DecryptionError)
          | r => (s2, r)
      | none => (s1, .ok ())

/-- symmetric.py lines 81-85: `NotFinalized` before `finalize`, else the
handle's `digest()` result is returned unconditionally, for decrypting
contexts too. -/
def AEADCipherTemplate.calculateTag (s : AEADCipherTemplate) :
    AEADCipherTemplate × Except Exc Bytes :=
  if s.live then (s, .error .NotFinalized)
  else (s, s.cipher.digest)

/-! ## cryptodome_/_symmetric.py: CipherWrapper's update closures

`CipherWrapper.__init__` sets `_auth = None` when no HMAC hasher is defined,
`_updated = False` and `_len_ct = 0`.  `_get_update` / `_get_update_into`
build the working `update` / `update_into` closures over the raw handle's
`encrypt` or `decrypt` (`crpup`, selected by `self._locking`) and the HMAC
hasher's `update` (`hashup`).  The HMAC hasher (`_auth`, owned by the
missing-from-source `HMACMixin`) is modelled by the list of chunks fed to
it. -/

/-- External collaborator: a raw non-AEAD transform handle with stateful
`encrypt` and `decrypt`; `CS` is the handle's private state. -/
structure RawCipher (CS : Type) where
  encrypt : CS → Bytes → CS × Bytes
  decrypt : CS → Bytes → CS × Bytes

/-- `CipherWrapper` state (cryptodome_/_symmetric.py lines 36-45): `locking`
is `self._locking` (true = encrypting), `auth` is `self._auth` (`none` when
HMAC is disabled, else the trace of chunks fed to the HMAC hasher),
`updated` is `self._updated` and `lenCt` is `self._len_ct`. -/
structure CipherWrapper (CS : Type) where
  locking : Bool
  cipher : CS
  auth : Option (List Bytes)
  updated : Bool
  lenCt : Nat

/-- The closure built by `CipherWrapper._get_update` (cryptodome_/
_symmetric.py lines 47-72).  With HMAC disabled it is `crpup` itself;
when encrypting, `ctxt = crpup(data)` first and `hashup(ctxt)` feeds the
ciphertext to the MAC; when decrypting, `hashup(ctxt)` feeds the received
ciphertext first and `crpup(ctxt)` is returned. -/
def CipherWrapper.update {CS : Type} (rc : RawCipher CS) (s : CipherWrapper CS)
    (d : Bytes) : CipherWrapper CS × Bytes :=
  match s.auth with
  | none =>
      let x := (if s.locking then rc.encrypt else rc.decrypt) s.cipher d
      ({ s with cipher := x.1 }, x.2)
  | some tr =>
      if s.locking then
        let x := rc.encrypt s.cipher d
        ({ s with cipher := x.1, updated := true,
                  lenCt := s.lenCt + x.2.length, auth := some (tr ++ [x.2]) }, x.2)
      else
        let x := rc.decrypt s.cipher d
        ({ s with cipher := x.1, updated := true,
                  lenCt := s.lenCt + d.length, auth := some (tr ++ [d]) }, x.2)

/-- The closure built by `CipherWrapper._get_update_into` (cryptodome_/
_symmetric.py lines 74-98).  When encrypting, `crpup(data, out)` writes the
ciphertext into `out` and `hashup(out)` feeds that ciphertext to the MAC;
when decrypting, `hashup(data)` feeds the received ciphertext before
`crpup(data, out)` runs.  The returned bytes are the buffer's new
content. -/
def CipherWrapper.updateInto {CS : Type} (rc : RawCipher CS) (s : CipherWrapper CS)
    (d : Bytes) : CipherWrapper CS × Bytes :=
  match s.auth with
  | none =>
      let x := (if s.locking then rc.encrypt else rc.decrypt) s.cipher d
      ({ s with cipher := x.1 }, x.2)
  | some tr =>
      if s.locking then
        let x := rc.encrypt s.cipher d
        ({ s with cipher := x.1, updated := true,
                  lenCt := s.lenCt + x.2.length, auth := some (tr ++ [x.2]) }, x.2)
      else
        let x := rc.decrypt s.cipher d
        ({ s with cipher := x.1, updated := true,
                  lenCt := s.lenCt + d.length, auth := some (tr ++ [d]) }, x.2)

/-! ## cryptodome_/_symmetric.py: AEADCipherWrapper -/

/-- `AEADCipherWrapper` (cryptodome_/_symmetric.py lines 101-127): the
native-AEAD adapter.  `_auth` is `None` here, so its `_update` /
`_update_into` closures are the raw handle's `encrypt` / `decrypt`.  The
class keeps no lifecycle flag of its own. -/
structure AEADCipherWrapper where
  locking : Bool
  cipher : AEADPrim
  updated : Bool
  lenCt : Nat

/-- The wrapper's `update`: `_get_update` with `hashup = None` returns
`crpup` directly (cryptodome_/_symmetric.py lines 52-54). -/
def AEADCipherWrapper.update (w : AEADCipherWrapper) (d : Bytes) :
    AEADCipherWrapper × Bytes :=
  if w.locking then
    let x := w.cipher.encrypt d
    ({ w with cipher := x.1 }, x.2)
  else
    let x := w.cipher.decrypt d
    ({ w with cipher := x.1 }, x.2)

/-- The wrapper's `update_into`: `_get_update_into` with `hashup = None`
returns `crpup` directly (cryptodome_/_symmetric.py lines 79-81); the
returned bytes are the buffer's new content. -/
def AEADCipherWrapper.updateInto (w : AEADCipherWrapper) (d : Bytes) :
    AEADCipherWrapper × Bytes :=
  if w.locking then
    let x := w.cipher.encrypt d
    ({ w with cipher := x.1 }, x.2)
  else
    let x := w.cipher.decrypt d
    ({ w with cipher := x.1 }, x.2)

/-- cryptodome_/_symmetric.py lines 107-114: forward to the handle's
associated-data channel; its `TypeError` ("update after encrypt/decrypt")
is re-raised as a `TypeError` with an explanatory message. -/
def AEADCipherWrapper.authenticate (w : AEADCipherWrapper) (d : Bytes) :
    AEADCipherWrapper × Except Exc Unit :=
  let x := w.cipher.updateAAD d
  ({ w with cipher := x.1 }, x.2)

/-- cryptodome_/_symmetric.py lines 116-123: when decrypting, `TypeError`
without a tag (raised inside the `try`, but not a `ValueError`, so it
propagates), else the handle's `verify` runs and its `ValueError` becomes
`DecryptionError`.  When encrypting the method does nothing.  No finalized
check and no state transition is performed. -/
def AEADCipherWrapper.finalize (w : AEADCipherWrapper) (tag : Option Bytes) :
    AEADCipherWrapper × Except Exc Unit :=
  if w.locking then (w, .ok ())
  else
    match tag with
    | none => (w, .error .TypeError)
    | some t =>
        let x := w.cipher.verify t
        let w1 := { w with cipher := x.1 }
        match x.2 with
        | .error .ValueError => (w1, .error .DecryptionError)
        | r => (w1, r)

/-- cryptodome_/_symmetric.py lines 125-127: the handle's `digest()` when
encrypting, `None` (Python's implicit return) when decrypting. -/
def AEADCipherWrapper.calculateTag (w : AEADCipherWrapper) :
    Except Exc (Option Bytes) :=
  if w.locking then (w.cipher.digest).map some
  else .ok none

/-! ## cryptodome_/_symmetric.py: FileCipherMixin.update_into

The streaming driver is parametric in the wrapped cipher context: `upd`
stands for `super().update_into` restricted to its in-place use
`update(buf, buf)` (state and chunk in, state and the buffer's new content
out) and `fin` for `self.finalize`.  The source is the remaining byte
stream; `readinto` on a regular file reads `min blocksize remaining`
bytes. -/

/-- The read/transform/write loop of `FileCipherMixin.update_into`
(cryptodome_/_symmetric.py lines 186-193): read up to `blocksize` bytes, on
a short read truncate the buffer to the bytes actually read, transform the
buffer in place, write it to the sink, and stop when a read returns zero
bytes.  Returns the final context state and the list of buffers written. -/
def FileCipherMixin.loop {σ : Type} (upd : σ → Bytes → σ × Bytes) (blocksize : Nat)
    (s : σ) (src : Bytes) : σ × List Bytes :=
  if min blocksize src.length = 0 then (s, [])
  else
    let x := upd s (src.take blocksize)
    let y := FileCipherMixin.loop upd blocksize x.1 (src.drop blocksize)
    (y.1, x.2 :: y.2)
termination_by src.length
decreasing_by
  simp only [List.length_drop]
  rcases Nat.eq_zero_or_pos blocksize with hb | hb
  · simp [hb] at *
  · omega

/-- `FileCipherMixin.update_into` (cryptodome_/_symmetric.py lines
169-194): `TypeError` when decrypting without a tag, before anything is
read; then the read/transform/write loop; then exactly one terminal
`finalize(tag)` whose outcome is the call's outcome.  Returns the final
state, the buffers written to the sink, and the result. -/
def FileCipherMixin.updateInto {σ : Type} (upd : σ → Bytes → σ × Bytes)
    (fin : σ → Option Bytes → σ × Except Exc Unit) (locking : Bool)
    (blocksize : Nat) (s : σ) (src : Bytes) (tag : Option Bytes) :
    σ × List Bytes × Except Exc Unit :=
  if locking = false ∧ tag = none then (s, [], .error .TypeError)
  else
    let x := FileCipherMixin.loop upd blocksize s src
    let y := fin x.1 tag
    (y.1, x.2, y.2)

/-! ## Specification-side chunking

Independent description of the loop's read pattern, for the refinement
theorems: the source split into maximal `blocksize`-byte chunks, and a
state-threading map over those chunks. -/

/-- The source split into `blocksize`-byte chunks, the last one possibly
shorter; no empty chunk is produced. -/
def chunksOf (blocksize : Nat) (src : Bytes) : List Bytes :=
  if min blocksize src.length = 0 then []
  else src.take blocksize :: chunksOf blocksize (src.drop blocksize)
termination_by src.length
decreasing_by
  simp only [List.length_drop]
  rcases Nat.eq_zero_or_pos blocksize with hb | hb
  · simp [hb] at *
  · omega

/-- State-threading map: apply `f` to each chunk in order, collecting the
outputs. -/
def mapAccum {σ : Type} (f : σ → Bytes → σ × Bytes) (s : σ) :
    List Bytes → σ × List Bytes
  | [] => (s, [])
  | c :: cs =>
      let x := f s c
      let y := mapAccum f x.1 cs
      (y.1, x.2 :: y.2)

/-! ## cryptodome_/RSA.py: operation contexts

The PyCryptodome padding objects (`ctx`, built by `get_padding`) are
external collaborators: their `encrypt`/`decrypt`/`sign`/`verify` are
abstract parameters over the handle type `P`. -/

/-- `_EncDecContext` (RSA.py lines 264-278): `isPrivate` is the
`is_private` flag fixed at construction, `ctx` the provider padding
object. -/
structure EncDecContext (P : Type) where
  isPrivate : Bool
  ctx : P

/-- RSA.py lines 269-270: `encrypt` forwards unconditionally. -/
def EncDecContext.encrypt {P : Type} (primEncrypt : P → Bytes → Bytes)
    (c : EncDecContext P) (d : Bytes) : Bytes :=
  primEncrypt c.ctx d

/-- RSA.py lines 272-278: `decrypt` raises `TypeError` on a public-key
context before touching the primitive; a private-key context forwards and
converts the primitive's `ValueError` to `DecryptionError`. -/
def EncDecContext.decrypt {P : Type} (primDecrypt : P → Bytes → Except Exc Bytes)
    (c : EncDecContext P) (d : Bytes) : Except Exc Bytes :=
  if !c.isPrivate then .error .TypeError
  else
    match primDecrypt c.ctx d with
    | .error .ValueError => .error .DecryptionError
    | r => r

/-- `_SigVerContext` (RSA.py lines 281-293). -/
structure SigVerContext (P : Type) where
  isPrivate : Bool
  ctx : P

/-- RSA.py lines 286-289: `sign` raises `TypeError` on a public-key context
before touching the primitive. -/
def SigVerContext.sign {P : Type} (primSign : P → Bytes → Bytes)
    (c : SigVerContext P) (m : Bytes) : Except Exc Bytes :=
  if !c.isPrivate then .error .TypeError
  else .ok (primSign c.ctx m)

/-- RSA.py lines 291-293: `verify` raises `SignatureError` when the
primitive's check fails. -/
def SigVerContext.verify {P : Type} (primVerify : P → Bytes → Bytes → Bool)
    (c : SigVerContext P) (m sg : Bytes) : Except Exc Unit :=
  if primVerify c.ctx m sg then .ok () else .error .SignatureError

/-! ## Concrete sample instances (used by the witness theorems) -/

/-- Sample raw transform: add one to every byte. -/
def xfW : Bytes → Bytes := fun d => d.map (fun x => x + 1)

/-- Sample tag function: the chunk counts of associated data and payload. -/
def tagFnW : List Bytes → List Bytes → Bytes := fun a b => [a.length, b.length]

/-- A fresh native AEAD handle. -/
def primW : AEADPrim :=
  { xf := xfW, tagFn := tagFnW, aad := [], data := [],
    processed := false, decryptUsed := false, verified := false }

/-- A live decrypting `AEADCipherTemplate`. -/
def sDec : AEADCipherTemplate :=
  { encrypting := false, live := true, updated := false, cipher := primW }

/-- A live encrypting `AEADCipherTemplate`. -/
def sEnc : AEADCipherTemplate :=
  { encrypting := true, live := true, updated := false, cipher := primW }

/-- A decrypting `AEADCipherWrapper`. -/
def wDec : AEADCipherWrapper :=
  { locking := false, cipher := primW, updated := false, lenCt := 0 }

/-- An encrypting `AEADCipherWrapper`. -/
def wEnc : AEADCipherWrapper :=
  { locking := true, cipher := primW, updated := false, lenCt := 0 }

/-- A live `NonAEADCipherTemplate`. -/
def naLive : NonAEADCipherTemplate := { encrypting := true, live := true }

/-- Sample stateful raw non-AEAD cipher over state `Nat`. -/
def rcW : RawCipher Nat :=
  { encrypt := fun c d => (c + 1, d.map (fun x => x + 1)),
    decrypt := fun c d => (c + 1, d.map (fun x => x + 2)) }

/-- An encrypting HMAC-composed `CipherWrapper` with an empty MAC trace. -/
def cwEnc : CipherWrapper Nat :=
  { locking := true, cipher := 0, auth := some [], updated := false, lenCt := 0 }

/-- A decrypting HMAC-composed `CipherWrapper` with an empty MAC trace. -/
def cwDec : CipherWrapper Nat :=
  { locking := false, cipher := 0, auth := some [], updated := false, lenCt := 0 }

/-! ## Helper lemmas -/

/-- A finalized `AEADCipherTemplate` refuses `finalize`. -/
theorem AEADCipherTemplate.finalize_dead (s : AEADCipherTemplate) (tag : Option Bytes)
    (h : s.live = false) : s.finalize tag = (s, .error .AlreadyFinalized) := by
  simp [AEADCipherTemplate.finalize, h]

/-- A live decrypting `AEADCipherTemplate` refuses `finalize` without a tag,
leaving the state untouched. -/
theorem AEADCipherTemplate.finalize_no_tag (s : AEADCipherTemplate)
    (hl : s.live = true) (he : s.encrypting = false) :
    s.finalize none = (s, .error .ValueError) := by
  simp [AEADCipherTemplate.finalize, hl, he]

/-- Past its two guards, `AEADCipherTemplate.finalize` always clears
`_update_func`, whatever the verification outcome. -/
theorem AEADCipherTemplate.finalize_clears (s : AEADCipherTemplate) (tag : Option Bytes)
    (hl : s.live = true) (hg : ¬(s.encrypting = false ∧ tag = none)) :
    ((s.finalize tag).1).live = false := by
  simp only [AEADCipherTemplate.finalize, hl, Bool.not_true, Bool.false_eq_true,
    if_false, if_neg hg]
  split
  · rfl
  · rcases tag with _ | t
    · rfl
    · simp only []
      split <;> rfl

/-! ## Claims -/

/-- C1: For every HMAC-composed cipher context: when encrypting
(`locking = true`), `update`/`update_into` apply the cipher transform to the
input, feed the resulting ciphertext (not the plaintext) into the MAC, and
return that ciphertext; when decrypting, they feed the received ciphertext
into the MAC and return (write) the transform's output. -/
theorem C1_hmac_update_order {CS : Type} (rc : RawCipher CS) (s : CipherWrapper CS)
    (d : Bytes) (tr : List Bytes) (h : s.auth = some tr) :
    (s.locking = true →
      (CipherWrapper.update rc s d).2 = (rc.encrypt s.cipher d).2 ∧
      ((CipherWrapper.update rc s d).1).auth
        = some (tr ++ [(rc.encrypt s.cipher d).2]) ∧
      (CipherWrapper.updateInto rc s d).2 = (rc.encrypt s.cipher d).2 ∧
      ((CipherWrapper.updateInto rc s d).1).auth
        = some (tr ++ [(rc.encrypt s.cipher d).2])) ∧
    (s.locking = false →
      (CipherWrapper.update rc s d).2 = (rc.decrypt s.cipher d).2 ∧
      ((CipherWrapper.update rc s d).1).auth = some (tr ++ [d]) ∧
      (CipherWrapper.updateInto rc s d).2 = (rc.decrypt s.cipher d).2 ∧
      ((CipherWrapper.updateInto rc s d).1).auth = some (tr ++ [d])) := by
  constructor <;> intro hl <;>
    simp [CipherWrapper.update, CipherWrapper.updateInto, h, hl]

/-- C1 witness: the encrypting context MACs and returns the ciphertext, the
decrypting context MACs the received ciphertext. -/
theorem C1_hmac_update_order_witness :
    (CipherWrapper.update rcW cwEnc [3, 5]).2 = [4, 6] ∧
    ((CipherWrapper.update rcW cwEnc [3, 5]).1).auth = some [[4, 6]] ∧
    (CipherWrapper.update rcW cwDec [3, 5]).2 = [5, 7] ∧
    ((CipherWrapper.update rcW cwDec [3, 5]).1).auth = some [[3, 5]] :=
  ⟨((C1_hmac_update_order rcW cwEnc [3, 5] [] rfl).1 rfl).1,
   ((C1_hmac_update_order rcW cwEnc [3, 5] [] rfl).1 rfl).2.1,
   ((C1_hmac_update_order rcW cwDec [3, 5] [] rfl).2 rfl).1,
   ((C1_hmac_update_order rcW cwDec [3, 5] [] rfl).2 rfl).2.1⟩

/-- C2 counterexample: `finalize` on an encrypting `AEADCipherWrapper`
succeeds, and calling it a second time on the resulting context succeeds
again instead of raising `AlreadyFinalized` — the wrapper's `finalize`
performs no finalized check and no state transition. -/
theorem C2_finalize_once_cex :
    (wEnc.finalize none).2 = .ok () ∧
    (((wEnc.finalize none).1).finalize none).2 = .ok () :=
  ⟨rfl, rfl⟩

/-- C2 (amended): after a successful `finalize`, a second `finalize` raises
`AlreadyFinalized` for `NonAEADCipherTemplate` and `AEADCipherTemplate`
contexts; `AEADCipherWrapper.finalize` performs no finalized check and never
raises `AlreadyFinalized`. -/
theorem C2_finalize_once_amended (na : NonAEADCipherTemplate)
    (s : AEADCipherTemplate) (w : AEADCipherWrapper)
    (tag tag' tagw : Option Bytes) :
    (na.live = true →
      na.finalize.2 = .ok () ∧
      (na.finalize.1.finalize).2 = .error .AlreadyFinalized) ∧
    ((s.finalize tag).2 = .ok () →
      ((s.finalize tag).1.finalize tag').2 = .error .AlreadyFinalized) ∧
    (w.finalize tagw).2 ≠ .error .AlreadyFinalized := by
  refine ⟨?_, ?_, ?_⟩
  · intro h
    simp [NonAEADCipherTemplate.finalize, h]
  · intro hok
    have hlive : ((s.finalize tag).1).live = false := by
      by_cases hl : s.live = true
      · by_cases hg : s.encrypting = false ∧ tag = none
        · rcases hg with ⟨he, ht⟩
          subst ht
          rw [AEADCipherTemplate.finalize_no_tag s hl he] at hok
          simp at hok
        · exact AEADCipherTemplate.finalize_clears s tag hl hg
      · rw [AEADCipherTemplate.finalize_dead s tag (by simpa using hl)] at hok
        simp at hok
    rw [AEADCipherTemplate.finalize_dead _ tag' hlive]
  · by_cases hw : w.locking = true
    · simp [AEADCipherWrapper.finalize, hw]
    · rcases tagw with _ | t
      · simp [AEADCipherWrapper.finalize, hw]
      · by_cases ht : t = w.cipher.computedTag <;>
          simp [AEADCipherWrapper.finalize, AEADPrim.verify, hw, ht]

/-- C2 witness: the amended claim at concrete contexts — both templates
refuse the second finalize with `AlreadyFinalized`, the wrapper's second
finalize does not. -/
theorem C2_finalize_once_amended_witness :
    (naLive.finalize.1.finalize).2 = .error .AlreadyFinalized ∧
    ((sEnc.finalize none).1.finalize none).2 = .error .AlreadyFinalized ∧
    (wEnc.finalize none).2 ≠ .error .AlreadyFinalized :=
  ⟨((C2_finalize_once_amended naLive sEnc wEnc none none none).1 rfl).2,
   ((C2_finalize_once_amended naLive sEnc wEnc none none none).2.1 rfl),
   (C2_finalize_once_amended naLive sEnc wEnc none none none).2.2⟩

/-- C3: For every decrypting AEAD context (template over a native AEAD
handle, and the native AEAD wrapper) and every supplied tag that differs
from the tag the primitive computed over the processed ciphertext and
associated data, `finalize(tag)` raises `DecryptionError`: the primitive's
`ValueError` is converted, never propagated and never ignored. -/
theorem C3_tag_mismatch_decryption_error (s : AEADCipherTemplate)
    (w : AEADCipherWrapper) (t u : Bytes)
    (hl : s.live = true) (he : s.encrypting = false)
    (ht : t ≠ s.cipher.computedTag)
    (hw : w.locking = false) (hu : u ≠ w.cipher.computedTag) :
    (s.finalize (some t)).2 = .error .DecryptionError ∧
    (w.finalize (some u)).2 = .error .DecryptionError := by
  constructor
  · simp [AEADCipherTemplate.finalize, AEADPrim.verify, hl, he, ht]
  · simp [AEADCipherWrapper.finalize, AEADPrim.verify, hw, hu]

/-- C3 witness: a wrong tag makes both decrypting contexts fail with
`DecryptionError`. -/
theorem C3_tag_mismatch_decryption_error_witness :
    (sDec.finalize (some [9])).2 = .error .DecryptionError ∧
    (wDec.finalize (some [9])).2 = .error .DecryptionError :=
  C3_tag_mismatch_decryption_error sDec wDec [9] [9] rfl rfl
    (by decide) rfl (by decide)

/-- C4: For every AEAD context, once an `update` or `update_into` call has
been made, a subsequent `authenticate` fails with `TypeError` (the template
via its `_updated` flag, the native wrapper via the primitive's own
ordering error); `authenticate` succeeds (absorbing the associated data)
only before the first update. -/
theorem C4_authenticate_before_update (s : AEADCipherTemplate)
    (w : AEADCipherWrapper) (d e : Bytes) (hl : s.live = true) :
    ((((s.update e).1).authenticate d).2 = .error .TypeError) ∧
    ((((s.updateInto e).1).authenticate d).2 = .error .TypeError) ∧
    (s.updated = true → ((s.authenticate d).2 = .error .TypeError)) ∧
    (s.updated = false → s.cipher.processed = false → s.cipher.verified = false →
      (s.authenticate d).2 = .ok () ∧
      (((s.authenticate d).1).cipher).aad = s.cipher.aad ++ [d]) ∧
    ((((w.update e).1).authenticate d).2 = .error .TypeError) ∧
    ((((w.updateInto e).1).authenticate d).2 = .error .TypeError) ∧
    (w.cipher.processed = false → w.cipher.verified = false →
      (w.authenticate d).2 = .ok () ∧
      (((w.authenticate d).1).cipher).aad = w.cipher.aad ++ [d]) := by
  refine ⟨?_, ?_, ?_, ?_, ?_, ?_, ?_⟩
  · by_cases he : s.encrypting = true <;>
      simp [AEADCipherTemplate.update, AEADCipherTemplate.authenticate,
        AEADPrim.encrypt, AEADPrim.decrypt, hl, he]
  · by_cases he : s.encrypting = true <;>
      simp [AEADCipherTemplate.updateInto, AEADCipherTemplate.authenticate,
        AEADPrim.encrypt, AEADPrim.decrypt, hl, he]
  · intro hu
    simp [AEADCipherTemplate.authenticate, hl, hu]
  · intro hu hp hv
    simp [AEADCipherTemplate.authenticate, AEADPrim.updateAAD, hl, hu, hp, hv]
  · by_cases hlk : w.locking = true <;>
      simp [AEADCipherWrapper.update, AEADCipherWrapper.authenticate,
        AEADPrim.encrypt, AEADPrim.decrypt, AEADPrim.updateAAD, hlk]
  · by_cases hlk : w.locking = true <;>
      simp [AEADCipherWrapper.updateInto, AEADCipherWrapper.authenticate,
        AEADPrim.encrypt, AEADPrim.decrypt, AEADPrim.updateAAD, hlk]
  · intro hp hv
    simp [AEADCipherWrapper.authenticate, AEADPrim.updateAAD, hp, hv]

/-- C4 witness: after one update, `authenticate` raises `TypeError` on both
the template and the wrapper; before any update it succeeds. -/
theorem C4_authenticate_before_update_witness :
    ((((sEnc.update [1]).1).authenticate [2]).2 = .error .TypeError) ∧
    ((((wEnc.update [1]).1).authenticate [2]).2 = .error .TypeError) ∧
    (sEnc.authenticate [2]).2 = .ok () ∧
    (wEnc.authenticate [2]).2 = .ok () :=
  ⟨(C4_authenticate_before_update sEnc wEnc [2] [1] rfl).1,
   (C4_authenticate_before_update sEnc wEnc [2] [1] rfl).2.2.2.2.1,
   ((C4_authenticate_before_update sEnc wEnc [2] [1] rfl).2.2.2.1 rfl rfl rfl).1,
   ((C4_authenticate_before_update sEnc wEnc [2] [1] rfl).2.2.2.2.2.2 rfl rfl).1⟩

/-- C5: For every decrypting AEAD context, `finalize` without a tag raises
an error (`ValueError` in the template, as the base contract documents;
`TypeError` in the wrapper) with the state untouched, so no tag
verification is performed; for every encrypting AEAD context, `finalize`
without a tag succeeds. -/
theorem C5_finalize_tag_requirements (s s' : AEADCipherTemplate)
    (w w' : AEADCipherWrapper)
    (hl : s.live = true) (he : s.encrypting = false)
    (hl' : s'.live = true) (he' : s'.encrypting = true)
    (hw : w.locking = false) (hw' : w'.locking = true) :
    s.finalize none = (s, .error .ValueError) ∧
    (s'.finalize none).2 = .ok () ∧
    w.finalize none = (w, .error .TypeError) ∧
    (w'.finalize none).2 = .ok () := by
  refine ⟨AEADCipherTemplate.finalize_no_tag s hl he, ?_, ?_, ?_⟩
  · simp [AEADCipherTemplate.finalize, hl', he']
  · simp [AEADCipherWrapper.finalize, hw]
  · simp [AEADCipherWrapper.finalize, hw']

/-- C5 witness: tagless finalize fails on the decrypting contexts without
touching them, succeeds on the encrypting ones. -/
theorem C5_finalize_tag_requirements_witness :
    sDec.finalize none = (sDec, .error .ValueError) ∧
    (sEnc.finalize none).2 = .ok () ∧
    wDec.finalize none = (wDec, .error .TypeError) ∧
    (wEnc.finalize none).2 = .ok () :=
  C5_finalize_tag_requirements sDec sEnc wDec wEnc rfl rfl rfl rfl rfl rfl

/-- C6 (code bug): `BaseAEADCipher.calculate_tag`'s contract (base.py lines
130-138) says a decrypting context returns `None`, and
`AEADCipherWrapper.calculateTag` does return `None` when decrypting; but
`AEADCipherTemplate.calculate_tag` (symmetric.py lines 81-85) returns
`self._cipher.digest()` unconditionally, which for a decrypting, finalized
context raises the primitive's `TypeError` (PyCryptodome refuses `digest`
after `decrypt`/`verify`) instead of returning `None`.  Evaluated here on a
decrypting template that processed one chunk and was finalized with the
correct tag. -/
theorem C6_decrypt_calculate_tag_bug :
    (((((sDec.update [5]).1).finalize
        (some ((((sDec.update [5]).1).cipher).computedTag))).1).calculateTag).2
      = .error .TypeError ∧
    wDec.calculateTag = .ok none := by
  constructor
  · rfl
  · rfl

/-- C10: When `finalize(tag)` on a decrypting `AEADCipherTemplate` raises
`DecryptionError`, the context has nevertheless transitioned to the
finalized state: every subsequent `update`, `update_into`, `authenticate`
or `finalize` raises `AlreadyFinalized`, so a failed verification consumes
the context. -/
theorem C10_failed_verify_consumes (s : AEADCipherTemplate) (t : Bytes)
    (d d' d'' : Bytes) (tag' : Option Bytes)
    (hl : s.live = true) (he : s.encrypting = false)
    (ht : t ≠ s.cipher.computedTag) :
    (s.finalize (some t)).2 = .error .DecryptionError ∧
    ((((s.finalize (some t)).1).update d).2 = .error .AlreadyFinalized) ∧
    ((((s.finalize (some t)).1).updateInto d').2 = .error .AlreadyFinalized) ∧
    ((((s.finalize (some t)).1).authenticate d'').2 = .error .AlreadyFinalized) ∧
    ((((s.finalize (some t)).1).finalize tag').2 = .error .AlreadyFinalized) := by
  have hlive : ((s.finalize (some t)).1).live = false :=
    AEADCipherTemplate.finalize_clears s (some t) hl (by simp)
  refine ⟨?_, ?_, ?_, ?_, ?_⟩
  · simp [AEADCipherTemplate.finalize, AEADPrim.verify, hl, he, ht]
  · simp [AEADCipherTemplate.update, hlive]
  · simp [AEADCipherTemplate.updateInto, hlive]
  · simp [AEADCipherTemplate.authenticate, hlive]
  · rw [AEADCipherTemplate.finalize_dead _ tag' hlive]

/-- C10 witness: a failed verification consumes the concrete decrypting
template. -/
theorem C10_failed_verify_consumes_witness :
    (sDec.finalize (some [9])).2 = .error .DecryptionError ∧
    ((((sDec.finalize (some [9])).1).update [1]).2 = .error .AlreadyFinalized) ∧
    ((((sDec.finalize (some [9])).1).updateInto [2]).2 = .error .AlreadyFinalized) ∧
    ((((sDec.finalize (some [9])).1).authenticate [3]).2 = .error .AlreadyFinalized) ∧
    ((((sDec.finalize (some [9])).1).finalize none).2 = .error .AlreadyFinalized) :=
  C10_failed_verify_consumes sDec [9] [1] [2] [3] none rfl rfl (by decide)

/-! ## Streaming driver lemmas -/

/-- Sample streaming transform over state `Nat`: count the bytes seen and
add one to each. -/
def updW : Nat → Bytes → Nat × Bytes :=
  fun s c => (s + c.length, c.map (fun x => x + 1))

/-- Sample terminal finalize: always succeeds. -/
def finW : Nat → Option Bytes → Nat × Except Exc Unit :=
  fun s _ => (s, .ok ())

/-- The read/transform/write loop equals the state-threading map over the
blocksize-chunking of the source. -/
theorem FileCipherMixin.loop_eq_mapAccum {σ : Type} (upd : σ → Bytes → σ × Bytes)
    (blocksize : Nat) :
    ∀ (n : Nat) (s : σ) (src : Bytes), src.length ≤ n →
      FileCipherMixin.loop upd blocksize s src
        = mapAccum upd s (chunksOf blocksize src) := by
  intro n
  induction n with
  | zero =>
      intro s src hle
      have hs : src = [] := List.length_eq_zero.mp (Nat.le_zero.mp hle)
      subst hs
      rw [FileCipherMixin.loop, chunksOf]
      simp [mapAccum]
  | succ n ih =>
      intro s src hle
      rw [FileCipherMixin.loop, chunksOf]
      by_cases h : min blocksize src.length = 0
      · simp [h, mapAccum]
      · have hb : 0 < blocksize := by
          rcases Nat.eq_zero_or_pos blocksize with h0 | h0
          · simp [h0] at h
          · exact h0
        have hrest : (src.drop blocksize).length ≤ n := by
          simp only [List.length_drop]
          omega
        simp only [h, if_false, mapAccum]
        rw [ih _ (src.drop blocksize) hrest]

/-- C7: For every source, sink and chunked transform, the streaming
driver's `update_into` reads the source in blocks of at most `blocksize`
bytes (the final block truncated to the bytes actually read), transforms
each block in place and writes it out — the writes are exactly the
state-threading map of the wrapped `update_into` over the
blocksize-chunking of the source — stops when a read returns zero bytes,
and then calls `finalize(tag)` exactly once: the call's outcome (in
particular any `DecryptionError`) is precisely that terminal finalize's
outcome. -/
theorem C7_streaming_driver {σ : Type} (upd : σ → Bytes → σ × Bytes)
    (fin : σ → Option Bytes → σ × Except Exc Unit) (locking : Bool)
    (blocksize : Nat) (s : σ) (src : Bytes) (tag : Option Bytes)
    (htag : ¬(locking = false ∧ tag = none)) :
    FileCipherMixin.updateInto upd fin locking blocksize s src tag =
      ((fin (mapAccum upd s (chunksOf blocksize src)).1 tag).1,
       (mapAccum upd s (chunksOf blocksize src)).2,
       (fin (mapAccum upd s (chunksOf blocksize src)).1 tag).2) := by
  unfold FileCipherMixin.updateInto
  rw [if_neg htag,
    FileCipherMixin.loop_eq_mapAccum upd blocksize src.length s src le_rfl]

/-- C7 witness: the driver at a concrete encrypting run over a five-byte
source with blocksize two. -/
theorem C7_streaming_driver_witness :
    FileCipherMixin.updateInto updW finW true 2 0 [1, 2, 3, 4, 5] none =
      ((finW (mapAccum updW 0 (chunksOf 2 [1, 2, 3, 4, 5])).1 none).1,
       (mapAccum updW 0 (chunksOf 2 [1, 2, 3, 4, 5])).2,
       (finW (mapAccum updW 0 (chunksOf 2 [1, 2, 3, 4, 5])).1 none).2) :=
  C7_streaming_driver updW finW true 2 0 [1, 2, 3, 4, 5] none (by simp)

/-- C8: An RSA operation context constructed from a public key
(`is_private = False`) fails `decrypt`/`sign` with `TypeError` for every
underlying primitive and input — the primitive is never invoked — while a
private-key context's `sign` goes through to the primitive. -/
theorem C8_public_key_capability {P : Type}
    (primDecrypt : P → Bytes → Except Exc Bytes) (primSign : P → Bytes → Bytes)
    (c : EncDecContext P) (c' : SigVerContext P) (d m : Bytes)
    (hc : c.isPrivate = false) (hc' : c'.isPrivate = false) :
    EncDecContext.decrypt primDecrypt c d = .error .TypeError ∧
    SigVerContext.sign primSign c' m = .error .TypeError ∧
    (∀ c2 : SigVerContext P, c2.isPrivate = true →
      SigVerContext.sign primSign c2 m = .ok (primSign c2.ctx m)) := by
  refine ⟨?_, ?_, ?_⟩
  · simp [EncDecContext.decrypt, hc]
  · simp [SigVerContext.sign, hc']
  · intro c2 h2
    simp [SigVerContext.sign, h2]

/-- C8 witness: a public-key context refuses to decrypt and to sign; the
private-key context signs. -/
theorem C8_public_key_capability_witness :
    EncDecContext.decrypt (fun (_ : Nat) d => .ok d) ⟨false, 0⟩ [1]
      = .error .TypeError ∧
    SigVerContext.sign (fun (_ : Nat) m => m) ⟨false, 0⟩ [2]
      = .error .TypeError ∧
    (∀ c2 : SigVerContext Nat, c2.isPrivate = true →
      SigVerContext.sign (fun (_ : Nat) m => m) c2 [2] = .ok [2]) :=
  C8_public_key_capability (fun (_ : Nat) d => .ok d) (fun (_ : Nat) m => m)
    ⟨false, 0⟩ ⟨false, 0⟩ [1] [2] rfl rfl

/-- C9: Across a streaming run, every buffer the loop writes except the
last has exactly `blocksize` bytes, every buffer is nonempty and at most
`blocksize` bytes, and the written lengths sum to the source's length: the
buffer is truncated at most once, only for the final short chunk, after
which the source is exhausted (the next read returns zero) and the loop
exits. -/
theorem C9_buffer_truncated_once {σ : Type} (upd : σ → Bytes → σ × Bytes)
    (blocksize : Nat) (s : σ) (src : Bytes) (hb : 0 < blocksize)
    (hlen : ∀ (st : σ) (c : Bytes), ((upd st c).2).length = c.length) :
    (∀ o ∈ ((FileCipherMixin.loop upd blocksize s src).2).dropLast,
        o.length = blocksize) ∧
    (∀ o ∈ (FileCipherMixin.loop upd blocksize s src).2,
        o.length ≤ blocksize ∧ o.length ≠ 0) ∧
    (((FileCipherMixin.loop upd blocksize s src).2).map List.length).sum
      = src.length := by
  suffices H : ∀ (n : Nat) (s : σ) (src : Bytes), src.length ≤ n →
      (∀ o ∈ ((FileCipherMixin.loop upd blocksize s src).2).dropLast,
          o.length = blocksize) ∧
      (∀ o ∈ (FileCipherMixin.loop upd blocksize s src).2,
          o.length ≤ blocksize ∧ o.length ≠ 0) ∧
      (((FileCipherMixin.loop upd blocksize s src).2).map List.length).sum
        = src.length by
    exact H src.length s src le_rfl
  intro n
  induction n with
  | zero =>
      intro s src hle
      have hs : src = [] := List.length_eq_zero.mp (Nat.le_zero.mp hle)
      subst hs
      rw [FileCipherMixin.loop]
      simp
  | succ n ih =>
      intro s src hle
      rw [FileCipherMixin.loop]
      by_cases h : min blocksize src.length = 0
      · simp only [h, if_pos rfl]
        have hsrc : src.length = 0 := by omega
        simp [hsrc]
      · have hpos : 0 < src.length := by omega
        have hrest : (src.drop blocksize).length ≤ n := by
          simp only [List.length_drop]
          omega
        obtain ⟨ihA, ihB, ihC⟩ := ih (upd s (src.take blocksize)).1
          (src.drop blocksize) hrest
        have hhead : ((upd s (src.take blocksize)).2).length
            = min blocksize src.length := by
          rw [hlen, List.length_take]
        simp only [h, if_false]
        refine ⟨?_, ?_, ?_⟩
        · intro o ho
          rcases hrec : (FileCipherMixin.loop upd blocksize
              (upd s (src.take blocksize)).1 (src.drop blocksize)).2 with _ | ⟨r, rs⟩
          · simp [hrec] at ho
          · rw [hrec] at ihA ihB ihC
            simp only [hrec] at ho
            rw [List.dropLast_cons_of_ne_nil (by simp)] at ho
            rcases List.mem_cons.mp ho with ho1 | ho2
            · subst ho1
              -- the tail is nonempty, so the source extends past blocksize
              have htail : 0 < (src.drop blocksize).length := by
                by_contra hz
                have hz0 : (src.drop blocksize).length = 0 := by omega
                rw [FileCipherMixin.loop] at hrec
                simp [hz0] at hrec
              have : blocksize < src.length := by
                simp only [List.length_drop] at htail
                omega
              rw [hhead]
              omega
            · exact ihA o ho2
        · intro o ho
          rcases List.mem_cons.mp ho with ho1 | ho2
          · subst ho1
            rw [hhead]
            omega
          · exact ihB o ho2
        · simp only [List.map_cons, List.sum_cons, ihC, hhead, List.length_drop]
          omega

/-- C9 witness: a seven-byte source with blocksize three gives two full
buffers and one final truncated buffer. -/
theorem C9_buffer_truncated_once_witness :
    (∀ o ∈ ((FileCipherMixin.loop updW 3 0 [1, 2, 3, 4, 5, 6, 7]).2).dropLast,
        o.length = 3) ∧
    (∀ o ∈ (FileCipherMixin.loop updW 3 0 [1, 2, 3, 4, 5, 6, 7]).2,
        o.length ≤ 3 ∧ o.length ≠ 0) ∧
    (((FileCipherMixin.loop updW 3 0 [1, 2, 3, 4, 5, 6, 7]).2).map List.length).sum
      = 7 :=
  C9_buffer_truncated_once updW 3 0 [1, 2, 3, 4, 5, 6, 7] (by decide)
    (by intro st c; simp [updW])

end Pyflocker
